import Mathlib

/-!
Shallow embedding of the Exam Planner focus-timer core
(`FocusTimerManager` in the focus-timer module) and of the exam-list
state manager (`StateManager.addExam` in `state.ts`), with theorems
checking the natural-language specification against the code.

Modelling conventions:
* JS timestamps (`Date.now()`) are `Int` milliseconds, passed explicitly
  as a `now` argument wherever the source reads the clock.
* JS `number` arithmetic on integral values is `Int`; the one real
  division (`elapsed / totalDuration` in the tick) is modelled over `ℚ`.
* JS truthiness on `number | null` fields (`!this.targetTime`) is
  modelled exactly: `none` and `some 0` are both falsy.
* The interval handle `this.timer` is modelled as a `Bool` (scheduled or
  not); `clearInterval` sets it to `false`.
* DOM / audio / persistence side effects are modelled as event logs on
  the state: every `updateDisplay(ms)` call conses `ms` onto
  `displayLog` (and sets `display`), every `updateTreeGrowth(p)` call
  conses `p` onto `growthLog`, `completeCurrentTree` / `cancelCurrentTree`
  / `playNotification` / `saveSettings` bump counters or logs.
* `startPomodoro` in the source ends with a throttled `tickPomodoro()`
  call; the throttle suppresses it inside a synchronous completion
  chain, so the tick body is modelled as the separate `tickPomodoro`
  function and the trailing call is not folded into `startPomodoro`.
-/

namespace ExamPlanner

/-- The pomodoro phase: `'work' | 'short' | 'long'` in `PomodoroState`. -/
inductive Phase where
  | work
  | short
  | long
deriving DecidableEq, Repr

/-- `PomodoroState` from `types.ts`: four configured durations (minutes),
the current phase and the completed-work-cycle count. -/
structure PomodoroState where
  work : Int
  short : Int
  long : Int
  every : Int
  phase : Phase
  count : Nat
deriving DecidableEq, Repr

/-- The mutable fields of `FocusTimerManager`, plus event logs recording
the side effects (display pushes, tree-growth pushes, forest commits and
cancels, notifications, settings persistence). -/
structure Timer where
  timer : Bool
  targetTime : Option Int
  startTime : Option Int
  totalDuration : Int
  pomodoroState : PomodoroState
  display : Int
  displayLog : List Int
  growthLog : List ℚ
  treeCompleted : Nat
  treeCancelled : Nat
  notified : Nat
  savedLog : List (Int × Int × Int × Int)
deriving DecidableEq, Repr

/-- `updateDisplay(ms)`: records the pushed value. -/
def updateDisplay (ms : Int) (s : Timer) : Timer :=
  { s with display := ms, displayLog := ms :: s.displayLog }

/-- `updateTreeGrowth(progress)`: records the pushed progress value. -/
def updateTreeGrowth (p : ℚ) (s : Timer) : Timer :=
  { s with growthLog := p :: s.growthLog }

/-- `playNotification()`: best-effort side effect, counted only. -/
def playNotification (s : Timer) : Timer :=
  { s with notified := s.notified + 1 }

/-- `saveSettings()`: persists the four settings via
`state.updateFocusSettings`, recorded as a log entry. -/
def saveSettings (s : Timer) : Timer :=
  { s with savedLog :=
      (s.pomodoroState.work, s.pomodoroState.short,
       s.pomodoroState.long, s.pomodoroState.every) :: s.savedLog }

/-- The inline phase-to-minutes lookup used by `startPomodoro` and by
`getCurrentPhaseDuration` (phase ternary chain). -/
def phaseMinutes (ps : PomodoroState) : Int :=
  match ps.phase with
  | Phase.work => ps.work
  | Phase.short => ps.short
  | Phase.long => ps.long

/-- `getCurrentPhaseDuration(override?)`: `if (override) return override`
(JS truthiness: `0` and `undefined` fall through), else the configured
minutes of the current phase. -/
def getCurrentPhaseDuration (override : Option Int) (ps : PomodoroState) : Int :=
  match override with
  | some o => if o ≠ 0 then o else phaseMinutes ps
  | none => phaseMinutes ps

/-- `pause()`: clears the interval if scheduled; field-wise this sets
`timer` to `false` and touches nothing else. -/
def pause (s : Timer) : Timer :=
  { s with timer := false }

/-- `startPomodoro()`: fresh start when `!this.targetTime` (null or 0),
otherwise the resume branch: `remainingTime = targetTime - now`, and only
when it is positive, `startTime = now`, `totalDuration = remainingTime`,
`targetTime = now + remainingTime`; finally schedules the interval. -/
def startPomodoro (now : Int) (s : Timer) : Timer :=
  let fresh :=
    let minutes := phaseMinutes s.pomodoroState
    let total := minutes * 60000
    { s with startTime := some now, totalDuration := total,
             targetTime := some (now + total), timer := true }
  match s.targetTime with
  | none => fresh
  | some t =>
      if t = 0 then fresh
      else
        let remaining := t - now
        if 0 < remaining then
          { s with startTime := some now, totalDuration := remaining,
                   targetTime := some (now + remaining), timer := true }
        else
          { s with timer := true }

/-- `start()`: returns immediately when already running, else
`startPomodoro()`. -/
def start (now : Int) (s : Timer) : Timer :=
  if s.timer then s else startPomodoro now s

/-- `handlePomodoroPhaseComplete()`: notification, pause, the phase
transition policy (work: `count++`, long break iff
`count % every === 0` with JS truncated remainder; break: back to work),
clearing of the run fields, display of the next phase duration, then
auto-start of the next phase. -/
def handlePomodoroPhaseComplete (now : Int) (s : Timer) : Timer :=
  let s1 := pause (playNotification s)
  let s2 :=
    if s1.pomodoroState.phase = Phase.work then
      let count := s1.pomodoroState.count + 1
      let isLongBreak := Int.tmod (count : Int) s1.pomodoroState.every = 0
      { s1 with
          pomodoroState :=
            { s1.pomodoroState with
                count := count,
                phase := if isLongBreak then Phase.long else Phase.short },
          treeCompleted := s1.treeCompleted + 1 }
    else
      { s1 with pomodoroState := { s1.pomodoroState with phase := Phase.work } }
  let s3 := { s2 with targetTime := none, startTime := none, totalDuration := 0 }
  let s4 := updateDisplay (getCurrentPhaseDuration none s3.pomodoroState * 60000) s3
  startPomodoro now s4

/-- The body of `tickPomodoro` (the throttled arrow function): early
return when `!this.targetTime || !this.startTime` (null or 0), else
`diff = max(0, targetTime - now)`, `progress = min(1, elapsed / totalDuration)`,
display push, tree-growth push during the work phase, and
phase-completion handling when `diff <= 0`. -/
def tickPomodoro (now : Int) (s : Timer) : Timer :=
  match s.targetTime, s.startTime with
  | some t, some st =>
      if t = 0 ∨ st = 0 then s
      else
        let diff := max 0 (t - now)
        let progress : ℚ := min 1 (((now - st : Int) : ℚ) / (s.totalDuration : ℚ))
        let s1 := updateDisplay diff s
        let s2 :=
          if s.pomodoroState.phase = Phase.work then updateTreeGrowth progress s1
          else s1
        if diff ≤ 0 then handlePomodoroPhaseComplete now s2 else s2
  | _, _ => s

/-- `reset()`: pause, clear the run fields, force phase `work` and
`count = 0`, display the configured work minutes, cancel the growing
tree. -/
def reset (s : Timer) : Timer :=
  let s1 := pause s
  let s2 := { s1 with
      targetTime := none, startTime := none, totalDuration := 0,
      pomodoroState := { s1.pomodoroState with phase := Phase.work, count := 0 } }
  let s3 := updateDisplay (s2.pomodoroState.work * 60000) s2
  { s3 with treeCancelled := s3.treeCancelled + 1 }

/-- The mode-selector values: `'work' | 'short' | 'long' | 'verylong'`. -/
inductive SwitchTarget where
  | work
  | short
  | long
  | verylong
deriving DecidableEq, Repr

/-- The ternary `phase === 'verylong' ? 'long' : phase`. -/
def switchTargetPhase : SwitchTarget → Phase
  | SwitchTarget.work => Phase.work
  | SwitchTarget.short => Phase.short
  | SwitchTarget.long => Phase.long
  | SwitchTarget.verylong => Phase.long

/-- The ternary `phase === 'verylong' ? 30 : undefined`. -/
def switchTargetOverride : SwitchTarget → Option Int
  | SwitchTarget.verylong => some 30
  | _ => none

/-- `switchPhase(phase)`: pause if running, set
`phase === 'verylong' ? 'long' : phase`, display
`getCurrentPhaseDuration(phase === 'verylong' ? 30 : undefined)` minutes,
clear the run fields. -/
def switchPhase (target : SwitchTarget) (s : Timer) : Timer :=
  let s1 := if s.timer then pause s else s
  let s2 := { s1 with pomodoroState :=
      { s1.pomodoroState with phase := switchTargetPhase target } }
  let minutes := getCurrentPhaseDuration (switchTargetOverride target) s2.pomodoroState
  let s3 := updateDisplay (minutes * 60000) s2
  { s3 with targetTime := none, startTime := none, totalDuration := 0 }

/-- The values `parseInt(input.value)` can produce for the four settings
inputs: `none` models `NaN`, `some n` an integer. -/
structure SettingsInput where
  work : Option Int
  short : Option Int
  long : Option Int
  every : Option Int
deriving DecidableEq, Repr

/-- `parseInt(x) || default`: `NaN` and `0` are falsy and fall back to
the default; every other integer (negatives included) is kept. -/
def settingsField (v : Option Int) (default : Int) : Int :=
  match v with
  | some n => if n ≠ 0 then n else default
  | none => default

/-- The shared field-update part of `handleSettingsInput` and
`handleSettingsChange` (defaults 25/5/15/4 from `DEFAULT_SETTINGS`). -/
def applySettings (inp : SettingsInput) (ps : PomodoroState) : PomodoroState :=
  { ps with
      work := settingsField inp.work 25,
      short := settingsField inp.short 5,
      long := settingsField inp.long 15,
      every := settingsField inp.every 4 }

/-- `handleSettingsInput()`: real-time preview; updates the four fields,
and when no timer is scheduled refreshes the display from the current
phase duration. -/
def handleSettingsInput (inp : SettingsInput) (s : Timer) : Timer :=
  let s1 := { s with pomodoroState := applySettings inp s.pomodoroState }
  if s1.timer then s1
  else updateDisplay (getCurrentPhaseDuration none s1.pomodoroState * 60000) s1

/-- `handleSettingsChange()`: same field updates, then `saveSettings()`
and `renderCycles()`, then the same conditional display refresh. -/
def handleSettingsChange (inp : SettingsInput) (s : Timer) : Timer :=
  let s1 := saveSettings { s with pomodoroState := applySettings inp s.pomodoroState }
  if s1.timer then s1
  else updateDisplay (getCurrentPhaseDuration none s1.pomodoroState * 60000) s1

/-- The state after the constructor and `init()`: settings loaded from
storage (or defaults), phase `work`, count `0`, no run, and the initial
work duration displayed. -/
def initTimer (w sh lo ev : Int) : Timer :=
  updateDisplay (w * 60000)
    { timer := false, targetTime := none, startTime := none, totalDuration := 0,
      pomodoroState :=
        { work := w, short := sh, long := lo, every := ev,
          phase := Phase.work, count := 0 },
      display := 0, displayLog := [], growthLog := [],
      treeCompleted := 0, treeCancelled := 0, notified := 0, savedLog := [] }

/-- One step of the timer's public operations (the control handlers wired
in `setupControls`, the tick body, and the completion handler a tick can
trigger). -/
inductive Step : Timer → Timer → Prop where
  | start (now : Int) (s : Timer) : Step s (start now s)
  | pause (s : Timer) : Step s (pause s)
  | reset (s : Timer) : Step s (reset s)
  | switchPhase (t : SwitchTarget) (s : Timer) : Step s (switchPhase t s)
  | tick (now : Int) (s : Timer) : Step s (tickPomodoro now s)
  | complete (now : Int) (s : Timer) : Step s (handlePomodoroPhaseComplete now s)
  | settingsInput (inp : SettingsInput) (s : Timer) : Step s (handleSettingsInput inp s)
  | settingsChange (inp : SettingsInput) (s : Timer) : Step s (handleSettingsChange inp s)

/-- States reachable from some initial state by the timer operations. -/
inductive Reachable : Timer → Prop where
  | init (w sh lo ev : Int) : Reachable (initTimer w sh lo ev)
  | step {s s' : Timer} : Reachable s → Step s s' → Reachable s'

/-- `Exam` from `types.ts` (optional fields as `Option`). -/
structure Exam where
  id : String
  title : String
  date : String
  time : Option String
  tag : String
  notes : Option String
  createdAt : String
  completed : Option Bool
deriving DecidableEq, Repr

/-- `LIMITS.EXAMS_MAX` from `types.ts`. -/
def EXAMS_MAX : Nat := 1000

/-- The `/^\d{4}-\d{2}-\d{2}$/` test in `extractDateString`. -/
def isYMDString (s : String) : Bool :=
  let cs := s.toList
  cs.length = 10 ∧
  (List.range 10).all fun i =>
    if i = 4 ∨ i = 7 then cs.getD i ' ' = '-' else (cs.getD i ' ').isDigit

/-- `extractDateString(dateInput)` for string input: a `YYYY-MM-DD`
string is returned as-is; otherwise the source parses it with
`new Date(...)` and formats it with `formatDate`, a composition that
depends on the JS date parser and the local timezone, supplied here as
the explicit `jsDateFormat` environment function. -/
def extractDateString (jsDateFormat : String → String) (s : String) : String :=
  if isYMDString s then s else jsDateFormat s

/-- The part of `StateManager` state that `addExam` reads and writes,
with toast messages logged. -/
structure ExamsState where
  exams : List Exam
  toasts : List String
  persisted : Nat
  notifiedCount : Nat
deriving DecidableEq, Repr

/-- `StateManager.addExam(exam)`: reject (with a toast) only at the
`LIMITS.EXAMS_MAX` cap; otherwise run the duplicate check
(case-insensitive title, normalized date), toast on a duplicate, and
append, persist and notify unconditionally, returning `true`. -/
def addExam (jsDateFormat : String → String) (exam : Exam) (st : ExamsState) :
    Bool × ExamsState :=
  if EXAMS_MAX ≤ st.exams.length then
    (false, { st with toasts := "Maximum 1000 exams reached!" :: st.toasts })
  else
    let newExamDate := extractDateString jsDateFormat exam.date
    let isDuplicate := st.exams.any fun e =>
      e.title.toLower = exam.title.toLower ∧
        extractDateString jsDateFormat e.date = newExamDate
    let st1 :=
      if isDuplicate then
        { st with toasts := "Similar exam already exists!" :: st.toasts }
      else st
    (true, { st1 with exams := st1.exams ++ [exam],
                      persisted := st1.persisted + 1,
                      notifiedCount := st1.notifiedCount + 1 })

/-! ## Helper lemmas -/

theorem tmod_coe_eq_emod (m : Nat) (b : Int) (hb : 0 ≤ b) :
    Int.tmod (m : Int) b = (m : Int) % b := by
  obtain ⟨k, rfl⟩ := Int.eq_ofNat_of_zero_le hb
  rfl

theorem settingsField_ne_zero (v : Option Int) (d : Int) (hd : d ≠ 0) :
    settingsField v d ≠ 0 := by
  cases v with
  | none => simpa [settingsField]
  | some n => by_cases hn : n = 0 <;> simp [settingsField, hn, hd]

/-! ## Claim theorems -/

/-- C5: from any state and any values of the timer fields, `reset()`
yields the idle state: no scheduled tick, phase `work`, count `0`,
cleared start/target timestamps and total duration, and the configured
work minutes (unchanged by the reset) on the display. -/
theorem reset_yields_idle_work (s : Timer) :
    (reset s).timer = false ∧
    (reset s).pomodoroState.phase = Phase.work ∧
    (reset s).pomodoroState.count = 0 ∧
    (reset s).targetTime = none ∧
    (reset s).startTime = none ∧
    (reset s).totalDuration = 0 ∧
    (reset s).display = s.pomodoroState.work * 60000 ∧
    (reset s).pomodoroState.work = s.pomodoroState.work := by
  simp [reset, pause, updateDisplay]

/-- C8: calling `start()` while the timer is already running returns
immediately: the state, interval scheduling included, is unchanged. -/
theorem start_noop_while_running (now : Int) (s : Timer) (h : s.timer = true) :
    start now s = s := by
  simp [start, h]

theorem start_noop_while_running_witness :
    (start 0 (initTimer 25 5 15 4)).timer = true ∧
    start 99 (start 0 (initTimer 25 5 15 4)) = start 0 (initTimer 25 5 15 4) :=
  ⟨by decide, start_noop_while_running 99 _ (by decide)⟩

/-- C10: `switchPhase('verylong')` sets the phase to `long` yet displays
exactly 30 minutes whatever the configured long-break minutes; the
targets `work`, `short` and `long` display the corresponding configured
minutes. -/
theorem switchPhase_display_durations (s : Timer) :
    ((switchPhase SwitchTarget.verylong s).pomodoroState.phase = Phase.long ∧
      (switchPhase SwitchTarget.verylong s).display = 30 * 60000) ∧
    ((switchPhase SwitchTarget.work s).pomodoroState.phase = Phase.work ∧
      (switchPhase SwitchTarget.work s).display = s.pomodoroState.work * 60000) ∧
    ((switchPhase SwitchTarget.short s).pomodoroState.phase = Phase.short ∧
      (switchPhase SwitchTarget.short s).display = s.pomodoroState.short * 60000) ∧
    ((switchPhase SwitchTarget.long s).pomodoroState.phase = Phase.long ∧
      (switchPhase SwitchTarget.long s).display = s.pomodoroState.long * 60000) := by
  cases hb : s.timer <;>
    simp [switchPhase, hb, pause, getCurrentPhaseDuration, phaseMinutes, updateDisplay,
      switchTargetPhase, switchTargetOverride]

/-- C1 (refuted): pausing does not freeze the remaining time. With
defaults, starting the 25-minute work phase at `now = 0` sets
`targetTime = 1500000`; pausing leaves `targetTime` untouched, so at the
pause instant `60000` the remaining time is `1440000`. Resuming at
`now = 120000` computes `remainingTime = targetTime - now = 1380000` —
the remaining time at the *resume* instant, not the one captured at
pause — and restores the very same `targetTime = 1500000`. The 60
seconds spent paused are lost from the countdown. -/
theorem pause_resume_loses_paused_time :
    (pause (start 0 (initTimer 25 5 15 4))).targetTime = some 1500000 ∧
    ((1500000 : Int) - 60000 = 1440000) ∧
    (start 120000 (pause (start 0 (initTimer 25 5 15 4)))).totalDuration = 1380000 ∧
    (start 120000 (pause (start 0 (initTimer 25 5 15 4)))).targetTime = some 1500000 ∧
    ((1380000 : Int) ≠ 1440000) := by
  decide

/-- C3 (counterexample): a negative settings input is not replaced by
the default — `parseInt('-5') || 25` keeps `-5`, so after the update the
stored work minutes are not a positive integer. -/
theorem settings_negative_kept :
    (handleSettingsChange ⟨some (-5), some 5, some 15, some 4⟩
        (initTimer 25 5 15 4)).pomodoroState.work = -5 ∧
    ¬ (0 < (handleSettingsChange ⟨some (-5), some 5, some 15, some 4⟩
        (initTimer 25 5 15 4)).pomodoroState.work) := by
  decide

/-- C3 (amended): a settings update never fails; a missing/non-numeric
(`NaN`) or zero field falls back to its default (25/5/15/4), and any
other integer — negative ones included — is stored as given, so the
stored values are guaranteed nonzero but not necessarily positive. -/
theorem settings_update_normalizes (inp : SettingsInput) (s : Timer) :
    ((handleSettingsChange inp s).pomodoroState.work ≠ 0 ∧
     (handleSettingsChange inp s).pomodoroState.short ≠ 0 ∧
     (handleSettingsChange inp s).pomodoroState.long ≠ 0 ∧
     (handleSettingsChange inp s).pomodoroState.every ≠ 0) ∧
    ((inp.work = none ∨ inp.work = some 0) →
      (handleSettingsChange inp s).pomodoroState.work = 25) ∧
    ((inp.short = none ∨ inp.short = some 0) →
      (handleSettingsChange inp s).pomodoroState.short = 5) ∧
    ((inp.long = none ∨ inp.long = some 0) →
      (handleSettingsChange inp s).pomodoroState.long = 15) ∧
    ((inp.every = none ∨ inp.every = some 0) →
      (handleSettingsChange inp s).pomodoroState.every = 4) ∧
    (∀ n : Int, n ≠ 0 → inp.work = some n →
      (handleSettingsChange inp s).pomodoroState.work = n) ∧
    (∀ n : Int, n ≠ 0 → inp.short = some n →
      (handleSettingsChange inp s).pomodoroState.short = n) ∧
    (∀ n : Int, n ≠ 0 → inp.long = some n →
      (handleSettingsChange inp s).pomodoroState.long = n) ∧
    (∀ n : Int, n ≠ 0 → inp.every = some n →
      (handleSettingsChange inp s).pomodoroState.every = n) := by
  have hps : (handleSettingsChange inp s).pomodoroState = applySettings inp s.pomodoroState := by
    cases hb : s.timer <;> simp [handleSettingsChange, saveSettings, hb, updateDisplay]
  rw [hps]
  simp only [applySettings]
  refine ⟨⟨settingsField_ne_zero _ _ (by decide), settingsField_ne_zero _ _ (by decide),
          settingsField_ne_zero _ _ (by decide), settingsField_ne_zero _ _ (by decide)⟩,
      ?_, ?_, ?_, ?_, ?_, ?_, ?_, ?_⟩
  · rintro (h | h) <;> simp [h, settingsField]
  · rintro (h | h) <;> simp [h, settingsField]
  · rintro (h | h) <;> simp [h, settingsField]
  · rintro (h | h) <;> simp [h, settingsField]
  · intro n hn h; simp [h, settingsField, hn]
  · intro n hn h; simp [h, settingsField, hn]
  · intro n hn h; simp [h, settingsField, hn]
  · intro n hn h; simp [h, settingsField, hn]

theorem settings_update_normalizes_witness :
    (handleSettingsChange ⟨none, some 0, some 7, some (-2)⟩
        (initTimer 25 5 15 4)).pomodoroState.work = 25 :=
  (settings_update_normalizes ⟨none, some 0, some 7, some (-2)⟩
      (initTimer 25 5 15 4)).2.1 (Or.inl rfl)

theorem startPomodoro_pomodoroState (now : Int) (s : Timer) :
    (startPomodoro now s).pomodoroState = s.pomodoroState := by
  cases h : s.targetTime with
  | none => simp [startPomodoro, h]
  | some t => simp only [startPomodoro, h]; split_ifs <;> rfl

theorem startPomodoro_timer (now : Int) (s : Timer) :
    (startPomodoro now s).timer = true := by
  cases h : s.targetTime with
  | none => simp [startPomodoro, h]
  | some t => simp only [startPomodoro, h]; split_ifs <;> rfl

/-- C2: on phase completion, a finished work phase increments the cycle
count by exactly one and moves to the long break precisely when the new
count is a multiple of `every`, otherwise to the short break; a finished
break (short or long) always moves back to work and leaves the count
unchanged; manual `switchPhase` never changes the count. -/
theorem phase_completion_policy (now : Int) (s : Timer) (tg : SwitchTarget)
    (hev : 0 < s.pomodoroState.every) :
    (s.pomodoroState.phase = Phase.work →
      (handlePomodoroPhaseComplete now s).pomodoroState.count = s.pomodoroState.count + 1 ∧
      (handlePomodoroPhaseComplete now s).pomodoroState.phase =
        (if ((s.pomodoroState.count : Int) + 1) % s.pomodoroState.every = 0
         then Phase.long else Phase.short)) ∧
    (s.pomodoroState.phase ≠ Phase.work →
      (handlePomodoroPhaseComplete now s).pomodoroState.count = s.pomodoroState.count ∧
      (handlePomodoroPhaseComplete now s).pomodoroState.phase = Phase.work) ∧
    (switchPhase tg s).pomodoroState.count = s.pomodoroState.count := by
  refine ⟨?_, ?_, ?_⟩
  · intro hw
    rw [show handlePomodoroPhaseComplete now s =
        startPomodoro now (updateDisplay
          (getCurrentPhaseDuration none
            { s.pomodoroState with
                count := s.pomodoroState.count + 1,
                phase := if Int.tmod ((s.pomodoroState.count + 1 : Nat) : Int)
                    s.pomodoroState.every = 0 then Phase.long else Phase.short } * 60000)
          { playNotification s with
              timer := false,
              targetTime := none, startTime := none, totalDuration := 0,
              pomodoroState :=
                { s.pomodoroState with
                    count := s.pomodoroState.count + 1,
                    phase := if Int.tmod ((s.pomodoroState.count + 1 : Nat) : Int)
                        s.pomodoroState.every = 0 then Phase.long else Phase.short },
              treeCompleted := s.treeCompleted + 1 }) from by
      simp [handlePomodoroPhaseComplete, pause, playNotification, hw, updateDisplay]]
    rw [startPomodoro_pomodoroState]
    rw [tmod_coe_eq_emod _ _ hev.le]
    simp [updateDisplay]
  · intro hw
    rw [show handlePomodoroPhaseComplete now s =
        startPomodoro now (updateDisplay
          (getCurrentPhaseDuration none { s.pomodoroState with phase := Phase.work } * 60000)
          { playNotification s with
              timer := false,
              targetTime := none, startTime := none, totalDuration := 0,
              pomodoroState := { s.pomodoroState with phase := Phase.work } }) from by
      simp [handlePomodoroPhaseComplete, pause, playNotification, hw, updateDisplay]]
    rw [startPomodoro_pomodoroState]
    simp [updateDisplay]
  · cases hb : s.timer <;> simp [switchPhase, hb, pause, updateDisplay]

theorem phase_completion_policy_witness :
    (0 : Int) < (initTimer 25 5 15 4).pomodoroState.every ∧
    (handlePomodoroPhaseComplete 0 (initTimer 25 5 15 4)).pomodoroState.count =
      (initTimer 25 5 15 4).pomodoroState.count + 1 :=
  ⟨by decide,
    ((phase_completion_policy 0 (initTimer 25 5 15 4) SwitchTarget.work
        (by decide)).1 (by decide)).1⟩

/-- C7: a settings mutation (change or real-time input) performed while
the timer is running leaves the in-flight countdown untouched —
`targetTime`, `startTime`, `totalDuration`, the display and the
scheduled tick all keep their values — and any phase started afterwards
from a cleared run reads its duration from the mutated settings. -/
theorem settings_frame_while_running (inp : SettingsInput) (s : Timer)
    (h : s.timer = true) :
    (handleSettingsChange inp s).targetTime = s.targetTime ∧
    (handleSettingsChange inp s).startTime = s.startTime ∧
    (handleSettingsChange inp s).totalDuration = s.totalDuration ∧
    (handleSettingsChange inp s).display = s.display ∧
    (handleSettingsChange inp s).timer = true ∧
    (handleSettingsInput inp s).targetTime = s.targetTime ∧
    (handleSettingsInput inp s).startTime = s.startTime ∧
    (handleSettingsInput inp s).totalDuration = s.totalDuration ∧
    (handleSettingsInput inp s).display = s.display ∧
    (∀ now : Int, ∀ s2 : Timer, s2.targetTime = none →
      s2.pomodoroState = (handleSettingsChange inp s).pomodoroState →
      (startPomodoro now s2).totalDuration =
        phaseMinutes (applySettings inp s.pomodoroState) * 60000) := by
  have hps : (handleSettingsChange inp s).pomodoroState = applySettings inp s.pomodoroState := by
    simp [handleSettingsChange, saveSettings, h]
  refine ⟨?_, ?_, ?_, ?_, ?_, ?_, ?_, ?_, ?_, ?_⟩ <;>
    try simp [handleSettingsChange, handleSettingsInput, saveSettings, h]
  intro now s2 htg hp
  simp [startPomodoro, htg, hp, hps]

theorem settings_frame_while_running_witness :
    (start 0 (initTimer 25 5 15 4)).timer = true ∧
    (handleSettingsChange ⟨some 10, some 2, some 3, some 4⟩
        (start 0 (initTimer 25 5 15 4))).targetTime =
      (start 0 (initTimer 25 5 15 4)).targetTime :=
  ⟨by decide,
    (settings_frame_while_running ⟨some 10, some 2, some 3, some 4⟩
        (start 0 (initTimer 25 5 15 4)) (by decide)).1⟩

theorem handleComplete_fields (now : Int) (s : Timer) :
    (handlePomodoroPhaseComplete now s).timer = true ∧
    (handlePomodoroPhaseComplete now s).startTime = some now ∧
    (handlePomodoroPhaseComplete now s).targetTime =
      some (now + phaseMinutes (handlePomodoroPhaseComplete now s).pomodoroState * 60000) ∧
    (handlePomodoroPhaseComplete now s).totalDuration =
      phaseMinutes (handlePomodoroPhaseComplete now s).pomodoroState * 60000 ∧
    (handlePomodoroPhaseComplete now s).displayLog =
      phaseMinutes (handlePomodoroPhaseComplete now s).pomodoroState * 60000 :: s.displayLog := by
  by_cases hph : s.pomodoroState.phase = Phase.work <;>
    simp [handlePomodoroPhaseComplete, pause, playNotification, hph, updateDisplay,
      getCurrentPhaseDuration, startPomodoro]

/-- C4: a tick of a running countdown computes
`remaining = max(0, targetTime - now)` and
`progress = min(1, (now - startTime) / totalDuration)`, pushes the
remaining time to the display, pushes the progress to the tree animation
exactly when the current phase is `work`, and otherwise leaves the run
untouched; when the remaining time reaches zero it runs the
phase-completion handling and immediately auto-starts the next phase
(the tick stays scheduled and a fresh run from `now` exists — no idle
gap). -/
theorem tick_running_behaviour (now : Int) (s : Timer) (t st : Int)
    (ht : s.targetTime = some t) (hst : s.startTime = some st)
    (ht0 : t ≠ 0) (hst0 : st ≠ 0) :
    ((0 : Int) < t - now →
      (tickPomodoro now s).displayLog = max 0 (t - now) :: s.displayLog ∧
      (tickPomodoro now s).growthLog =
        (if s.pomodoroState.phase = Phase.work
         then min 1 (((now - st : Int) : ℚ) / (s.totalDuration : ℚ)) :: s.growthLog
         else s.growthLog) ∧
      (tickPomodoro now s).timer = s.timer ∧
      (tickPomodoro now s).targetTime = s.targetTime ∧
      (tickPomodoro now s).startTime = s.startTime ∧
      (tickPomodoro now s).totalDuration = s.totalDuration ∧
      (tickPomodoro now s).pomodoroState = s.pomodoroState) ∧
    (t - now ≤ 0 →
      (tickPomodoro now s).timer = true ∧
      (tickPomodoro now s).startTime = some now ∧
      (tickPomodoro now s).targetTime =
        some (now + phaseMinutes (tickPomodoro now s).pomodoroState * 60000) ∧
      (tickPomodoro now s).totalDuration =
        phaseMinutes (tickPomodoro now s).pomodoroState * 60000 ∧
      (tickPomodoro now s).displayLog =
        phaseMinutes (tickPomodoro now s).pomodoroState * 60000 :: (0 : Int) :: s.displayLog) := by
  constructor
  · intro h
    have hne : ¬ (t - now ≤ 0) := not_le.mpr h
    by_cases hph : s.pomodoroState.phase = Phase.work <;>
      simp [tickPomodoro, ht, hst, ht0, hst0, hne, hph, updateDisplay, updateTreeGrowth,
        max_eq_right h.le]
  · intro h
    have hmax : max 0 (t - now) = 0 := max_eq_left h
    have hred : tickPomodoro now s = handlePomodoroPhaseComplete now
        (if s.pomodoroState.phase = Phase.work
          then updateTreeGrowth (min 1 (((now - st : Int) : ℚ) / (s.totalDuration : ℚ)))
                 (updateDisplay 0 s)
          else updateDisplay 0 s) := by
      by_cases hph : s.pomodoroState.phase = Phase.work <;>
        simp [tickPomodoro, ht, hst, ht0, hst0, hmax, hph]
    rw [hred]
    obtain ⟨h1, h2, h3, h4, h5⟩ := handleComplete_fields now _
    refine ⟨h1, h2, h3, h4, ?_⟩
    rw [h5]
    by_cases hph : s.pomodoroState.phase = Phase.work <;>
      simp [hph, updateTreeGrowth, updateDisplay]

theorem tick_running_behaviour_witness :
    ((start 1000 (initTimer 25 5 15 4)).targetTime = some 1501000 ∧
     (start 1000 (initTimer 25 5 15 4)).startTime = some 1000 ∧
     (1501000 : Int) ≠ 0 ∧ (1000 : Int) ≠ 0) ∧
    ((0 : Int) < 1501000 - 2000 →
      (tickPomodoro 2000 (start 1000 (initTimer 25 5 15 4))).displayLog =
        max 0 (1501000 - 2000) :: (start 1000 (initTimer 25 5 15 4)).displayLog ∧
      (tickPomodoro 2000 (start 1000 (initTimer 25 5 15 4))).growthLog =
        (if (start 1000 (initTimer 25 5 15 4)).pomodoroState.phase = Phase.work
         then min 1 (((2000 - 1000 : Int) : ℚ) /
            ((start 1000 (initTimer 25 5 15 4)).totalDuration : ℚ)) ::
            (start 1000 (initTimer 25 5 15 4)).growthLog
         else (start 1000 (initTimer 25 5 15 4)).growthLog) ∧
      (tickPomodoro 2000 (start 1000 (initTimer 25 5 15 4))).timer =
        (start 1000 (initTimer 25 5 15 4)).timer ∧
      (tickPomodoro 2000 (start 1000 (initTimer 25 5 15 4))).targetTime =
        (start 1000 (initTimer 25 5 15 4)).targetTime ∧
      (tickPomodoro 2000 (start 1000 (initTimer 25 5 15 4))).startTime =
        (start 1000 (initTimer 25 5 15 4)).startTime ∧
      (tickPomodoro 2000 (start 1000 (initTimer 25 5 15 4))).totalDuration =
        (start 1000 (initTimer 25 5 15 4)).totalDuration ∧
      (tickPomodoro 2000 (start 1000 (initTimer 25 5 15 4))).pomodoroState =
        (start 1000 (initTimer 25 5 15 4)).pomodoroState) :=
  ⟨⟨by decide, by decide, by decide, by decide⟩,
    (tick_running_behaviour 2000 (start 1000 (initTimer 25 5 15 4)) 1501000 1000
        (by decide) (by decide) (by decide) (by decide)).1⟩

/-- The paired-timestamps invariant: `targetTime` and `startTime` are
both set or both unset, and a scheduled tick implies a set target. -/
def TimerInv (s : Timer) : Prop :=
  (s.targetTime = none ↔ s.startTime = none) ∧ (s.timer = true → s.targetTime ≠ none)

theorem timerInv_startPomodoro (now : Int) (s : Timer) (h : TimerInv s) :
    TimerInv (startPomodoro now s) := by
  obtain ⟨h1, h2⟩ := h
  cases ht : s.targetTime with
  | none => simp [startPomodoro, ht, TimerInv]
  | some t =>
      have hstart : s.startTime ≠ none := by
        intro hs
        exact Option.noConfusion (ht ▸ h1.mpr hs)
      simp only [startPomodoro, ht]
      split_ifs <;> simp [TimerInv, ht, hstart]

theorem timerInv_start (now : Int) (s : Timer) (h : TimerInv s) :
    TimerInv (start now s) := by
  by_cases hb : s.timer = true
  · simpa [start, hb] using h
  · simp only [start, hb, if_false]
    exact timerInv_startPomodoro now s h

theorem timerInv_pause (s : Timer) (h : TimerInv s) : TimerInv (pause s) :=
  ⟨h.1, by simp [pause]⟩

theorem timerInv_reset (s : Timer) : TimerInv (reset s) := by
  simp [TimerInv, reset, pause, updateDisplay]

theorem timerInv_switchPhase (tg : SwitchTarget) (s : Timer) :
    TimerInv (switchPhase tg s) := by
  cases hb : s.timer <;> simp [TimerInv, switchPhase, hb, pause, updateDisplay]

theorem timerInv_complete (now : Int) (s : Timer) :
    TimerInv (handlePomodoroPhaseComplete now s) := by
  by_cases hph : s.pomodoroState.phase = Phase.work <;>
    simp [TimerInv, handlePomodoroPhaseComplete, pause, playNotification, hph,
      updateDisplay, startPomodoro]

theorem timerInv_tick (now : Int) (s : Timer) (h : TimerInv s) :
    TimerInv (tickPomodoro now s) := by
  cases ht : s.targetTime with
  | none => simpa [tickPomodoro, ht] using h
  | some t =>
      cases hst : s.startTime with
      | none => simpa [tickPomodoro, ht, hst] using h
      | some st =>
          by_cases hg : t = 0 ∨ st = 0
          · simpa [tickPomodoro, ht, hst, hg] using h
          · by_cases hd : max 0 (t - now) ≤ 0
            · have : tickPomodoro now s = handlePomodoroPhaseComplete now
                  (if s.pomodoroState.phase = Phase.work
                    then updateTreeGrowth
                          (min 1 (((now - st : Int) : ℚ) / (s.totalDuration : ℚ)))
                          (updateDisplay (max 0 (t - now)) s)
                    else updateDisplay (max 0 (t - now)) s) := by
                by_cases hph : s.pomodoroState.phase = Phase.work <;>
                  simp [tickPomodoro, ht, hst, hg, hd, hph]
              rw [this]
              exact timerInv_complete now _
            · by_cases hph : s.pomodoroState.phase = Phase.work <;>
                · simp only [TimerInv] at h ⊢
                  simp [tickPomodoro, ht, hst, hg, hd, hph, updateDisplay,
                    updateTreeGrowth]

theorem timerInv_settingsInput (inp : SettingsInput) (s : Timer) (h : TimerInv s) :
    TimerInv (handleSettingsInput inp s) := by
  simp only [TimerInv] at h ⊢
  cases hb : s.timer <;>
    simpa [handleSettingsInput, hb, updateDisplay] using h

theorem timerInv_settingsChange (inp : SettingsInput) (s : Timer) (h : TimerInv s) :
    TimerInv (handleSettingsChange inp s) := by
  simp only [TimerInv] at h ⊢
  cases hb : s.timer <;>
    simpa [handleSettingsChange, saveSettings, hb, updateDisplay] using h

/-- C6 (amended): in every reachable state, `startTime` and `targetTime`
are both set or both unset, and while the tick is scheduled (running)
they are set; they are however not cleared by `pause()`, so "both set"
does not coincide with Running. -/
theorem reachable_timestamps_paired (s : Timer) (h : Reachable s) :
    (s.targetTime = none ↔ s.startTime = none) ∧
    (s.timer = true → s.targetTime ≠ none) := by
  induction h with
  | init w sh lo ev => simp [initTimer, updateDisplay]
  | step _ hstep ih =>
      cases hstep with
      | start now s' => exact timerInv_start _ _ ih
      | pause s' => exact timerInv_pause _ ih
      | reset s' => exact timerInv_reset _
      | switchPhase tg s' => exact timerInv_switchPhase _ _
      | tick now s' => exact timerInv_tick _ _ ih
      | complete now s' => exact timerInv_complete _ _
      | settingsInput inp s' => exact timerInv_settingsInput _ _ ih
      | settingsChange inp s' => exact timerInv_settingsChange _ _ ih

theorem reachable_timestamps_paired_witness :
    ((initTimer 25 5 15 4).targetTime = none ↔ (initTimer 25 5 15 4).startTime = none) ∧
    ((initTimer 25 5 15 4).timer = true → (initTimer 25 5 15 4).targetTime ≠ none) :=
  reachable_timestamps_paired (initTimer 25 5 15 4) (Reachable.init 25 5 15 4)

/-- C6 (counterexample): a reachable paused state keeps both timestamps
set, refuting "set exactly when Running, unset when idle or paused". -/
theorem paused_run_keeps_timestamps :
    Reachable (pause (start 1000 (initTimer 25 5 15 4))) ∧
    (pause (start 1000 (initTimer 25 5 15 4))).timer = false ∧
    (pause (start 1000 (initTimer 25 5 15 4))).targetTime = some 1501000 ∧
    (pause (start 1000 (initTimer 25 5 15 4))).startTime = some 1000 :=
  ⟨Reachable.step (Reachable.step (Reachable.init 25 5 15 4) (Step.start 1000 _))
      (Step.pause _),
    by decide, by decide, by decide⟩

/-- C9: `addExam` appends and returns `true` whenever fewer than 1000
exams are stored — a duplicate (same lowercased title, same normalized
date) is still appended, the duplicate check only adds a warning toast —
and returns `false` leaving the list unchanged exactly at the 1000-exam
cap. -/
theorem addExam_duplicates_allowed (jsDateFormat : String → String) (exam : Exam)
    (st : ExamsState) :
    (st.exams.length < EXAMS_MAX →
      (addExam jsDateFormat exam st).1 = true ∧
      (addExam jsDateFormat exam st).2.exams = st.exams ++ [exam]) ∧
    (EXAMS_MAX ≤ st.exams.length →
      (addExam jsDateFormat exam st).1 = false ∧
      (addExam jsDateFormat exam st).2.exams = st.exams) := by
  constructor
  · intro h
    simp only [addExam, if_neg (not_le.mpr h)]
    split <;> simp
  · intro h
    simp [addExam, h]

/-- A concrete exam record used to witness `addExam` on a duplicate. -/
def examA : Exam :=
  ⟨"id1", "Math", "2025-01-01", none, "#fff5b1", none, "2025-01-01T00:00:00Z", none⟩

theorem addExam_duplicates_allowed_witness :
    (addExam id examA ⟨[examA], [], 0, 0⟩).1 = true ∧
    (addExam id examA ⟨[examA], [], 0, 0⟩).2.exams = [examA] ++ [examA] :=
  (addExam_duplicates_allowed id examA ⟨[examA], [], 0, 0⟩).1 (by decide)

end ExamPlanner
